import Mathlib

/-!
# Verification of the `LinearSystemVisualizer` mathematical model

Shallow embedding of the computational core of
`src/my-react-app/src/LinearSystemVisualizer.jsx` (mounted by `main.jsx`).
All numeric literals in the source (`0.5`, `0.25`, `-0.5`, `40`, `20`, ...)
are exact decimal fractions, so the model is embedded over `ℚ`; the
floating-point evaluation in the browser agrees with the rational one on
every stated constant and operation up to rounding, and the spec's
tolerance claims (`within 1e-9`) hold exactly here.
-/

namespace AxbViz

/-- A 2-D point `{x, y}` as produced by the component's helpers. -/
structure Point2D where
  x : ℚ
  y : ℚ
  deriving DecidableEq, Repr

/-- `VIEWBOX_SIZE = 20` from the source. -/
def VIEWBOX_SIZE : ℚ := 20

/-- `SCALE = 40` (pixels per unit) from the source. -/
def SCALE : ℚ := 40

/-- `ORIGIN = VIEWBOX_SIZE / 2` from the source. -/
def ORIGIN : ℚ := VIEWBOX_SIZE / 2

/-- `toSvg(x, y)`: math coordinates to SVG pixel coordinates.
`{ x: (ORIGIN + x) * SCALE, y: (ORIGIN - y) * SCALE }`. -/
def toSvg (x y : ℚ) : Point2D :=
  { x := (ORIGIN + x) * SCALE
    y := (ORIGIN - y) * SCALE }

/-- `transform(x, y)`: application of the fixed matrix
`A = [[1, 0.5], [0.5, 0.25]]`:
`{ x: 1*x + 0.5*y, y: 0.5*x + 0.25*y }`. -/
def transform (x y : ℚ) : Point2D :=
  { x := 1 * x + (1/2) * y
    y := (1/2) * x + (1/4) * y }

/-- Particular solution `xp = { x: bScalar, y: 0 }`. -/
def xp (bScalar : ℚ) : Point2D := { x := bScalar, y := 0 }

/-- Null-space basis vector `nullBasis = { x: -0.5, y: 1 }`. -/
def nullBasis : Point2D := { x := -(1/2), y := 1 }

/-- `x1 = xp + lambda1 * nullBasis`, componentwise as in the source. -/
def x1 (bScalar lambda1 : ℚ) : Point2D :=
  { x := (xp bScalar).x + lambda1 * nullBasis.x
    y := (xp bScalar).y + lambda1 * nullBasis.y }

/-- `x2 = xp + lambda2 * nullBasis`, componentwise as in the source. -/
def x2 (bScalar lambda2 : ℚ) : Point2D :=
  { x := (xp bScalar).x + lambda2 * nullBasis.x
    y := (xp bScalar).y + lambda2 * nullBasis.y }

/-- `diff = { x: x1.x - x2.x, y: x1.y - x2.y }`. -/
def diff (bScalar lambda1 lambda2 : ℚ) : Point2D :=
  { x := (x1 bScalar lambda1).x - (x2 bScalar lambda2).x
    y := (x1 bScalar lambda1).y - (x2 bScalar lambda2).y }

/-- `bVec = transform(xp.x, xp.y)` — the target b in the output space. -/
def bVec (bScalar : ℚ) : Point2D := transform (xp bScalar).x (xp bScalar).y

/-- `bFromX1 = transform(x1.x, x1.y)`. -/
def bFromX1 (bScalar lambda1 : ℚ) : Point2D :=
  transform (x1 bScalar lambda1).x (x1 bScalar lambda1).y

/-- `bFromX2 = transform(x2.x, x2.y)`. -/
def bFromX2 (bScalar lambda2 : ℚ) : Point2D :=
  transform (x2 bScalar lambda2).x (x2 bScalar lambda2).y

/-- `mappedDiff = transform(diff.x, diff.y)`. -/
def mappedDiff (bScalar lambda1 lambda2 : ℚ) : Point2D :=
  transform (diff bScalar lambda1 lambda2).x (diff bScalar lambda1 lambda2).y

/-- The component's state: the three slider-controlled scalars held in
`useState` hooks (`bScalar`, `lambda1`, `lambda2`). -/
structure VisState where
  bScalar : ℚ
  lambda1 : ℚ
  lambda2 : ℚ
  deriving DecidableEq, Repr

/-- `setBScalar` as invoked by the first slider's `onChange` handler:
replaces `bScalar` with the parsed slider value. -/
def setBScalar (v : ℚ) (s : VisState) : VisState :=
  { s with bScalar := v }

/-- `setLambda1` as invoked by the second slider's `onChange` handler. -/
def setLambda1 (v : ℚ) (s : VisState) : VisState :=
  { s with lambda1 := v }

/-- `setLambda2` as invoked by the third slider's `onChange` handler. -/
def setLambda2 (v : ℚ) (s : VisState) : VisState :=
  { s with lambda2 := v }

/-- The initial state: `useState(3)`, `useState(1)`, `useState(-2)`. -/
def initState : VisState := { bScalar := 3, lambda1 := 1, lambda2 := -2 }

end AxbViz

namespace AxbViz

/-- C1: For every `bScalar`, `lambda1`, `lambda2`, applying the fixed matrix
`A = [[1, 0.5], [0.5, 0.25]]` to `diff = x1 - x2` yields exactly `(0, 0)`
(exact arithmetic; in particular within any positive tolerance such as 1e-9,
for all values, including the slider range [-4, 4]). -/
theorem mappedDiff_eq_zero (bScalar lambda1 lambda2 : ℚ) :
    mappedDiff bScalar lambda1 lambda2 = { x := 0, y := 0 } := by
  simp only [mappedDiff, diff, x1, x2, xp, nullBasis, transform, Point2D.mk.injEq]
  constructor <;> ring

/-- C2: For every `bScalar`, `lambda1`, `lambda2`, the transformed solutions
agree: `transform(x1) = transform(x2) = transform(xp)` exactly. -/
theorem bFromX1_eq_bFromX2_eq_bVec (bScalar lambda1 lambda2 : ℚ) :
    bFromX1 bScalar lambda1 = bFromX2 bScalar lambda2 ∧
    bFromX1 bScalar lambda1 = bVec bScalar := by
  refine ⟨?_, ?_⟩ <;>
    · simp only [bFromX1, bFromX2, bVec, x1, x2, xp, nullBasis, transform,
        Point2D.mk.injEq]
      constructor <;> ring

/-- C3: Applying the fixed matrix to the fixed null-basis vector `(-0.5, 1)`
yields exactly `(0, 0)`. -/
theorem transform_nullBasis :
    transform nullBasis.x nullBasis.y = { x := 0, y := 0 } := by
  norm_num [transform, nullBasis, Point2D.mk.injEq]

/-- C4 counterexample: the map implemented by `transform` is NOT idempotent.
At the concrete input `(1, 0)`: `transform(1,0) = (1, 0.5)` but
`transform(1, 0.5) = (1.25, 0.625) ≠ (1, 0.5)`. -/
theorem transform_not_idempotent :
    ¬ transform (transform 1 0).x (transform 1 0).y = transform 1 0 := by
  norm_num [transform, Point2D.mk.injEq]

/-- C4 (amended): the fixed matrix `A = [[1, 0.5], [0.5, 0.25]]` is rank 1
with image on the line `y = 0.5x`, but it is not a projection in the
idempotent sense: composing `transform` with itself multiplies the output by
`5/4`, i.e. `A² = (5/4)·A`, so `A` is `5/4` times the orthogonal projection
onto the line `y = 0.5x` (it maps onto that line, without being idempotent). -/
theorem transform_transform_eq_five_fourths_smul (x y : ℚ) :
    transform (transform x y).x (transform x y).y =
      { x := (5/4) * (transform x y).x, y := (5/4) * (transform x y).y } := by
  simp only [transform, Point2D.mk.injEq]
  constructor <;> ring

/-- C5: `toSvg` is an affine map with fixed scale 40 and origin 10 that is
injective everywhere (so in particular over the visible range), and for
fixed `x` it strictly reverses the order of mathematical `y`: `y < y'`
implies `(toSvg x y').y < (toSvg x y).y`. -/
theorem toSvg_injective_and_antitone (x y x' y' : ℚ) :
    (toSvg x y = toSvg x' y' → x = x' ∧ y = y') ∧
    (y < y' → (toSvg x y').y < (toSvg x y).y) := by
  constructor
  · intro h
    simp only [toSvg, Point2D.mk.injEq, ORIGIN, VIEWBOX_SIZE, SCALE] at h
    obtain ⟨h1, h2⟩ := h
    constructor <;> linarith
  · intro h
    simp only [toSvg, ORIGIN, VIEWBOX_SIZE, SCALE]
    linarith

/-- Witness for C5: the theorem applied at concrete points. Injectivity at
`(2, 3)` against itself, and order reversal from `y = 0` to `y' = 1`. -/
theorem toSvg_injective_and_antitone_witness :
    ((2:ℚ) = 2 ∧ (3:ℚ) = 3) ∧ ((0:ℚ) < 1 ∧ (toSvg 0 1).y < (toSvg 0 0).y) :=
  ⟨(toSvg_injective_and_antitone 2 3 2 3).1 rfl,
   by norm_num, (toSvg_injective_and_antitone 0 0 0 1).2 (by norm_num)⟩

/-- C6 (Scenario 1): with `bScalar = 3`, `lambda1 = 1`, `lambda2 = -2`, the
model computes `xp = (3,0)`, `x1 = (2.5,1)`, `x2 = (4,-2)`,
`diff = (-1.5,3)` and `transform(diff) = (0,0)`. -/
theorem scenario1 :
    xp 3 = { x := 3, y := 0 } ∧
    x1 3 1 = { x := 5/2, y := 1 } ∧
    x2 3 (-2) = { x := 4, y := -2 } ∧
    diff 3 1 (-2) = { x := -(3/2), y := 3 } ∧
    mappedDiff 3 1 (-2) = { x := 0, y := 0 } := by
  norm_num [xp, x1, x2, diff, mappedDiff, nullBasis, transform, Point2D.mk.injEq]

/-- C7 (Scenario 3, boundary values): with `bScalar = -4`,
`lambda1 = lambda2 = 4`, the model computes `x1 = x2 = (-6, 4)` and
`diff = (0, 0)`; the same total formulas apply, with no special-casing. -/
theorem scenario3_boundary :
    x1 (-4) 4 = { x := -6, y := 4 } ∧
    x2 (-4) 4 = { x := -6, y := 4 } ∧
    x1 (-4) 4 = x2 (-4) 4 ∧
    diff (-4) 4 4 = { x := 0, y := 0 } := by
  norm_num [x1, x2, diff, xp, nullBasis, Point2D.mk.injEq]

/-- C8: each setter writes exactly one scalar of the state and leaves the
other two unchanged. -/
theorem setters_frame (s : VisState) (v : ℚ) :
    ((setBScalar v s).bScalar = v ∧
     (setBScalar v s).lambda1 = s.lambda1 ∧
     (setBScalar v s).lambda2 = s.lambda2) ∧
    ((setLambda1 v s).lambda1 = v ∧
     (setLambda1 v s).bScalar = s.bScalar ∧
     (setLambda1 v s).lambda2 = s.lambda2) ∧
    ((setLambda2 v s).lambda2 = v ∧
     (setLambda2 v s).bScalar = s.bScalar ∧
     (setLambda2 v s).lambda1 = s.lambda1) :=
  ⟨⟨rfl, rfl, rfl⟩, ⟨rfl, rfl, rfl⟩, ⟨rfl, rfl, rfl⟩⟩

/-- C9: every output of `transform` lies exactly on the column-space line
`y = 0.5x`; indeed `transform(x,y) = (x + 0.5y)·(1, 0.5)`, and in
particular the rendered target `bVec = transform(xp)` lies on that line. -/
theorem transform_image_on_line (x y bScalar : ℚ) :
    (transform x y).y = (1/2) * (transform x y).x ∧
    transform x y = { x := (x + (1/2) * y) * 1, y := (x + (1/2) * y) * (1/2) } ∧
    (bVec bScalar).y = (1/2) * (bVec bScalar).x := by
  refine ⟨?_, ?_, ?_⟩
  · simp only [transform]
    ring
  · simp only [transform, Point2D.mk.injEq]
    constructor <;> ring
  · simp only [bVec, xp, transform]
    ring

/-- C10: the initial component state is `bScalar = 3`, `lambda1 = 1`,
`lambda2 = -2`, so the first render shows exactly Scenario 1:
`xp = (3,0)`, `x1 = (2.5,1)`, `x2 = (4,-2)`. -/
theorem initState_is_scenario1 :
    initState = { bScalar := 3, lambda1 := 1, lambda2 := -2 } ∧
    xp initState.bScalar = { x := 3, y := 0 } ∧
    x1 initState.bScalar initState.lambda1 = { x := 5/2, y := 1 } ∧
    x2 initState.bScalar initState.lambda2 = { x := 4, y := -2 } := by
  norm_num [initState, xp, x1, x2, nullBasis, Point2D.mk.injEq]

end AxbViz
